import Mathlib

-- Shallow embedding of src/native/llama_cpp/llama_wrapper.cpp.
--
-- The llama.cpp engine (model loading, tokenization, logits, sampling
-- primitives, token-to-text decoding, llama_decode) is an external black box;
-- each engine interaction is modelled by oracle inputs (EngineStep, the
-- per-chunk decode results in prepare).  C `int` fields are modelled as Int,
-- loop counters that are non-negative by construction as Nat.  The C floats
-- `temp` / `top_p` are modelled as Rat: the wrapper only ever compares them
-- for equality (ensure_sampler, llama_wrapper.cpp line 53), so any type with
-- decidable equality captures the caching logic; float NaN behaviour is out
-- of scope.

namespace LlamaWrapper

/-- Model of `struct LlamaHandle` (llama_wrapper.cpp lines 21-44), keeping the
fields the control logic reads or writes.  The engine pointers (`model`, `ctx`,
`vocab`, `batch`) are external resources; of them we keep only the data the
wrapper logic consults: whether a sampler chain exists (`smpl`, non-null
pointer in C) and the fixed context size `n_ctx` returned by `llama_n_ctx`. -/
structure LlamaHandle where
  n_cur : Int
  is_prepared : Bool
  batch_size : Nat
  last_temp : Rat
  last_top_p : Rat
  n_prompt : Int
  n_gen : Int
  max_new_tokens : Int
  smpl : Bool
  n_ctx : Int
  deriving DecidableEq, Repr

/-- Model of `wrapper_init` (llama_wrapper.cpp lines 82-126) on its success
path: clamp the context size (line 84), set `batch_size = min(128, n_batch)`
where `n_batch = min(128, requested_ctx)` (lines 104, 120), and the
`LlamaHandle()` constructor defaults (lines 38-43). -/
def wrapper_init (ctx_size : Int) : LlamaHandle :=
  let requested_ctx : Int := if ctx_size > 0 then ctx_size else 1024
  { n_cur := 0
    is_prepared := false
    batch_size := (min 128 requested_ctx).toNat
    last_temp := -1
    last_top_p := -1
    n_prompt := 0
    n_gen := 0
    max_new_tokens := 128
    smpl := false
    n_ctx := requested_ctx }

/-- Outcome of `ensure_sampler`: the cached pipeline was kept and only
`llama_sampler_reset` was called, or a new chain was built, or
`llama_sampler_chain_init` failed. -/
inductive SamplerOutcome
  | resetOnly
  | rebuilt
  | failed
  deriving DecidableEq, Repr

/-- Model of `ensure_sampler` (llama_wrapper.cpp lines 50-77).  `initOk` is the
oracle for `llama_sampler_chain_init` succeeding (line 63).  If a sampler
exists and both parameters match the cached ones (line 53) the chain is only
reset; otherwise the old chain is freed (lines 58-61) and a new one is built,
caching the parameters (lines 74-75); if chain construction fails the handle
is left with no sampler (line 60) and `false` is returned (line 65). -/
def ensure_sampler (h : LlamaHandle) (temp top_p : Rat) (initOk : Bool) :
    SamplerOutcome × LlamaHandle :=
  if h.smpl = true ∧ temp = h.last_temp ∧ top_p = h.last_top_p then
    (SamplerOutcome.resetOnly, h)
  else if initOk then
    (SamplerOutcome.rebuilt,
      { h with smpl := true, last_temp := temp, last_top_p := top_p })
  else
    (SamplerOutcome.failed, { h with smpl := false })

/-- Byte-level check that `pat` is an initial segment of `s`, as `strstr`
performs at each candidate offset. -/
def beginsWith : List Char → List Char → Bool
  | [], _ => true
  | _ :: _, [] => false
  | a :: as, b :: bs => a == b && beginsWith as bs

/-- Model of `strstr(s, pat) != nullptr`: `pat` occurs as a contiguous
substring of `s`. -/
def containsSub (pat : List Char) : List Char → Bool
  | [] => beginsWith pat []
  | c :: rest => beginsWith pat (c :: rest) || containsSub pat rest

/-- The literal "<|im_end|" scanned for at llama_wrapper.cpp line 261. -/
def imEndMarker : List Char := ['<', '|', 'i', 'm', '_', 'e', 'n', 'd', '|']

/-- The literal "<|im_start|>" scanned for at llama_wrapper.cpp line 262. -/
def imStartMarker : List Char :=
  ['<', '|', 'i', 'm', '_', 's', 't', 'a', 'r', 't', '|', '>']

/-- The literal "<|user|>" scanned for at llama_wrapper.cpp line 264. -/
def userTagMarker : List Char := ['<', '|', 'u', 's', 'e', 'r', '|', '>']

/-- The literal "user\n" scanned for at llama_wrapper.cpp line 265. -/
def userNlMarker : List Char := ['u', 's', 'e', 'r', '\n']

/-- Model of the stop-word scan (llama_wrapper.cpp lines 261-265): the decoded
piece contains any of the four turn-boundary / role-marker substrings. -/
def stopHit (s : List Char) : Bool :=
  containsSub imEndMarker s || containsSub imStartMarker s ||
    containsSub userTagMarker s || containsSub userNlMarker s

/-- Oracle record for one `wrapper_get_next_token` call, describing the
engine's behaviour on that call: whether `llama_sampler_chain_init` would
succeed if a rebuild is needed, the sampled token's decoded piece as returned
by `llama_token_to_piece` (the output buffer is assumed large enough, so the
byte count is `piece.length`), whether `llama_vocab_is_eog` flags the token,
and whether `llama_decode` of the one-token batch returns 0. -/
structure EngineStep where
  samplerInitOk : Bool
  piece : List Char
  isEog : Bool
  decodeOk : Bool
  deriving DecidableEq, Repr

/-- Which exit path a `wrapper_get_next_token` call took. -/
inductive StepOutcome
  | notPrepared
  | samplerFail
  | ctxFull
  | lenLimit
  | stopSeq
  | eog
  | decodeFail
  | emitted (n : Nat)
  deriving DecidableEq, Repr

/-- The handle as it stands after the `ensure_sampler` call at
llama_wrapper.cpp line 232 (in C the same object, mutated in place). -/
def afterSampler (h : LlamaHandle) (temp top_p : Rat) (ok : Bool) :
    LlamaHandle :=
  (ensure_sampler h temp top_p ok).2

/-- Model of `wrapper_get_next_token` (llama_wrapper.cpp lines 224-300) as the
exit path taken plus the updated handle.  Control flow in source order:
not-prepared check (line 229), `ensure_sampler` (line 232), context guard
`n_cur >= n_ctx - 4` (line 240), length guard `n_gen >= max_new_tokens`
(line 247), stop-word scan on a non-empty decoded piece (lines 256-268),
end-of-generation check (line 273), one-token decode (line 291), and on
success the `n_cur++; n_gen++` increments (lines 297-298). -/
def next_token_step (h : LlamaHandle) (temp top_p : Rat) (e : EngineStep) :
    StepOutcome × LlamaHandle :=
  if h.is_prepared = false then (StepOutcome.notPrepared, h)
  else if (ensure_sampler h temp top_p e.samplerInitOk).1 = SamplerOutcome.failed
    then (StepOutcome.samplerFail, afterSampler h temp top_p e.samplerInitOk)
  else if (afterSampler h temp top_p e.samplerInitOk).n_ctx - 4 ≤
      (afterSampler h temp top_p e.samplerInitOk).n_cur then
    (StepOutcome.ctxFull, afterSampler h temp top_p e.samplerInitOk)
  else if (afterSampler h temp top_p e.samplerInitOk).max_new_tokens ≤
      (afterSampler h temp top_p e.samplerInitOk).n_gen then
    (StepOutcome.lenLimit, afterSampler h temp top_p e.samplerInitOk)
  else if 0 < e.piece.length ∧ stopHit e.piece = true then
    (StepOutcome.stopSeq, afterSampler h temp top_p e.samplerInitOk)
  else if e.isEog then (StepOutcome.eog, afterSampler h temp top_p e.samplerInitOk)
  else if e.decodeOk then
    (StepOutcome.emitted e.piece.length,
      { afterSampler h temp top_p e.samplerInitOk with
        n_cur := (afterSampler h temp top_p e.samplerInitOk).n_cur + 1
        n_gen := (afterSampler h temp top_p e.samplerInitOk).n_gen + 1 })
  else (StepOutcome.decodeFail, afterSampler h temp top_p e.samplerInitOk)

/-- The C return value of `wrapper_get_next_token` for each exit path:
-2 not prepared (line 230), -3 sampler failure (line 234), 0 on the guard and
stop paths (lines 243, 249, 267, 275), -4 decode failure (line 294), and the
decoded byte count on the submit path (line 299). -/
def returnCode : StepOutcome → Int
  | StepOutcome.notPrepared => -2
  | StepOutcome.samplerFail => -3
  | StepOutcome.ctxFull => 0
  | StepOutcome.lenLimit => 0
  | StepOutcome.stopSeq => 0
  | StepOutcome.eog => 0
  | StepOutcome.decodeFail => -4
  | StepOutcome.emitted n => (n : Int)

/-- Model of `wrapper_get_next_token`'s observable behaviour: the returned int
and the updated handle. -/
def wrapper_get_next_token (h : LlamaHandle) (temp top_p : Rat)
    (e : EngineStep) : Int × LlamaHandle :=
  (returnCode (next_token_step h temp top_p e).1,
    (next_token_step h temp top_p e).2)

/-- Model of the chunked pre-fill loop of `wrapper_prepare_prompt`
(llama_wrapper.cpp lines 185-206).  `chunkOk j` is the oracle for
`llama_decode` succeeding on the j-th chunk (line 200).  Each iteration
consumes `n_eval = min batch_size remaining` tokens and advances `n_cur` only
after a successful decode (line 205); a failed decode aborts with the partial
`n_cur` (line 202).  `fuel` makes the recursion structural; with
`batch_size ≥ 1` and `fuel ≥ remaining` the fuel never runs out (each
iteration consumes at least one token).  A `batch_size` of 0 would make the C
loop spin forever; it is modelled as failure and is unreachable, since
`wrapper_init` always sets `batch_size ≥ 1`. -/
def prefillAux (b : Nat) (chunkOk : Nat → Bool) :
    Nat → Nat → Nat → Nat → Bool × Nat
  | _, _, n_cur, 0 => (true, n_cur)
  | 0, _, n_cur, _ + 1 => (false, n_cur)
  | fuel + 1, chunkIdx, n_cur, r + 1 =>
    if b = 0 then (false, n_cur)
    else if chunkOk chunkIdx then
      prefillAux b chunkOk fuel (chunkIdx + 1) (n_cur + min b (r + 1))
        (r + 1 - min b (r + 1))
    else (false, n_cur)

/-- The pre-fill loop run on a whole prompt of `n_tokens` tokens, starting
from chunk 0 and `n_cur = 0` (llama_wrapper.cpp line 184).  Returns whether
every chunk decoded and the final `n_cur`. -/
def prefillLoop (b : Nat) (chunkOk : Nat → Bool) (n_tokens : Nat) :
    Bool × Nat :=
  prefillAux b chunkOk n_tokens 0 0 n_tokens

/-- Model of `wrapper_prepare_prompt` (llama_wrapper.cpp lines 150-218).
`n_tokens` is the tokenizer's output length (the two-phase tokenization,
lines 162-171, always yields the prompt's token count); `chunkOk` is the
per-chunk decode oracle.  The session is marked not-ready up front (line 155);
the prompt guard rejects `n_tokens >= n_ctx - 128` (lines 176-181); on a chunk
decode failure the function returns false with the partial `n_cur` and the
session still not-ready (line 202); on success it sets
`n_prompt = n_cur`, `n_gen = 0`,
`max_new_tokens = max(16, n_ctx - n_prompt - 128)` and marks the session
ready (lines 208-211). -/
def wrapper_prepare_prompt (h : LlamaHandle) (n_tokens : Nat)
    (chunkOk : Nat → Bool) : Bool × LlamaHandle :=
  if h.n_ctx - 128 ≤ (n_tokens : Int) then
    (false, { h with is_prepared := false })
  else if (prefillLoop h.batch_size chunkOk n_tokens).1 = true then
    (true,
      { h with
        n_cur := ((prefillLoop h.batch_size chunkOk n_tokens).2 : Int)
        n_prompt := ((prefillLoop h.batch_size chunkOk n_tokens).2 : Int)
        n_gen := 0
        max_new_tokens :=
          max 16
            (h.n_ctx - ((prefillLoop h.batch_size chunkOk n_tokens).2 : Int) -
              128)
        is_prepared := true })
  else
    (false,
      { h with
        is_prepared := false
        n_cur := ((prefillLoop h.batch_size chunkOk n_tokens).2 : Int) })

/-- Result of one `wrapper_free` call against the heap. -/
inductive FreeResult
  | noop
  | freed
  | useAfterFree
  deriving DecidableEq, Repr

/-- Model of `wrapper_free` (llama_wrapper.cpp lines 305-320) against a
one-allocation heap.  `ptrIsNull` is whether the caller passed a null pointer
(checked at line 306); `alive` is whether the `LlamaHandle` allocation is
still live.  A null pointer is a no-op.  A non-null pointer is dereferenced
(line 308) and the handle deleted (line 318), ending the allocation's life;
dereferencing after `delete` is undefined behaviour, surfaced as
`useAfterFree` — the C code has no liveness check, only the null check. -/
def wrapper_free (ptrIsNull : Bool) (alive : Bool) : FreeResult × Bool :=
  if ptrIsNull then (FreeResult.noop, alive)
  else if alive then (FreeResult.freed, false)
  else (FreeResult.useAfterFree, false)

/-- Iterate `wrapper_get_next_token` a given number of times with a fixed
parameter pair and a fixed engine oracle, returning the final handle. -/
def runSteps (temp top_p : Rat) (e : EngineStep) : Nat → LlamaHandle → LlamaHandle
  | 0, h => h
  | n + 1, h => runSteps temp top_p e n (wrapper_get_next_token h temp top_p e).2

/-- Run a list of engine-oracle steps through `next_token_step`, collecting
the outcome of every call and the final handle. -/
def runTrace (temp top_p : Rat) (h : LlamaHandle) :
    List EngineStep → List StepOutcome × LlamaHandle
  | [] => ([], h)
  | e :: es =>
    let r := next_token_step h temp top_p e
    let rest := runTrace temp top_p r.2 es
    (r.1 :: rest.1, rest.2)

/-- Number of calls in a trace that submitted a token to the engine. -/
def emittedCount (os : List StepOutcome) : Nat :=
  os.countP fun o =>
    match o with
    | StepOutcome.emitted _ => true
    | _ => false

/-- The sampler stage of a `wrapper_get_next_token` call succeeds: either the
cached pipeline matches the requested parameters, or chain construction
succeeds. -/
def samplerOk (h : LlamaHandle) (temp top_p : Rat) (e : EngineStep) : Prop :=
  (h.smpl = true ∧ temp = h.last_temp ∧ top_p = h.last_top_p) ∨
    e.samplerInitOk = true

instance (h : LlamaHandle) (temp top_p : Rat) (e : EngineStep) :
    Decidable (samplerOk h temp top_p e) := by
  unfold samplerOk; infer_instance

-- Concrete fixtures used by witness and counterexample theorems.

/-- The spec's worked example: a 256-token context prepared with a 50-token
prompt (every chunk decodes). -/
def hReady : LlamaHandle :=
  (wrapper_prepare_prompt (wrapper_init 256) 50 (fun _ => true)).2

/-- A prepared session whose generation budget is exhausted
(`n_gen = max_new_tokens = 78`). -/
def hLimit : LlamaHandle :=
  { n_cur := 128, is_prepared := true, batch_size := 128, last_temp := 1,
    last_top_p := 1, n_prompt := 50, n_gen := 78, max_new_tokens := 78,
    smpl := true, n_ctx := 256 }

/-- Engine oracle for an ordinary text token: one plain byte, no stop marker,
not end-of-generation, decode succeeds. -/
def ePlain : EngineStep :=
  { samplerInitOk := true, piece := ['a'], isEog := false, decodeOk := true }

/-- Engine oracle for a control token that decodes to zero bytes. -/
def eEmptyPiece : EngineStep :=
  { samplerInitOk := true, piece := [], isEog := false, decodeOk := true }

/-- Engine oracle for a token whose decoded text contains "<|im_start|>". -/
def eStopPiece : EngineStep :=
  { samplerInitOk := true, piece := 'x' :: imStartMarker, isEog := false,
    decodeOk := true }

/-- Engine oracle for an end-of-generation token. -/
def eEogStep : EngineStep :=
  { samplerInitOk := true, piece := ['a'], isEog := true, decodeOk := true }

-- Helper lemmas about ensure_sampler: it only touches the sampler fields.

@[simp] lemma ensure_sampler_n_cur (h : LlamaHandle) (t p : Rat) (ok : Bool) :
    ((ensure_sampler h t p ok).2).n_cur = h.n_cur := by
  unfold ensure_sampler
  split
  · rfl
  · split <;> rfl

@[simp] lemma ensure_sampler_n_gen (h : LlamaHandle) (t p : Rat) (ok : Bool) :
    ((ensure_sampler h t p ok).2).n_gen = h.n_gen := by
  unfold ensure_sampler
  split
  · rfl
  · split <;> rfl

@[simp] lemma ensure_sampler_n_prompt (h : LlamaHandle) (t p : Rat) (ok : Bool) :
    ((ensure_sampler h t p ok).2).n_prompt = h.n_prompt := by
  unfold ensure_sampler
  split
  · rfl
  · split <;> rfl

@[simp] lemma ensure_sampler_max_new (h : LlamaHandle) (t p : Rat) (ok : Bool) :
    ((ensure_sampler h t p ok).2).max_new_tokens = h.max_new_tokens := by
  unfold ensure_sampler
  split
  · rfl
  · split <;> rfl

@[simp] lemma ensure_sampler_is_prepared (h : LlamaHandle) (t p : Rat) (ok : Bool) :
    ((ensure_sampler h t p ok).2).is_prepared = h.is_prepared := by
  unfold ensure_sampler
  split
  · rfl
  · split <;> rfl

@[simp] lemma ensure_sampler_n_ctx (h : LlamaHandle) (t p : Rat) (ok : Bool) :
    ((ensure_sampler h t p ok).2).n_ctx = h.n_ctx := by
  unfold ensure_sampler
  split
  · rfl
  · split <;> rfl

lemma ensure_sampler_same (h : LlamaHandle) (t p : Rat) (ok : Bool)
    (hs : h.smpl = true) (ht : t = h.last_temp) (hp : p = h.last_top_p) :
    ensure_sampler h t p ok = (SamplerOutcome.resetOnly, h) := by
  unfold ensure_sampler
  rw [if_pos ⟨hs, ht, hp⟩]

lemma ensure_sampler_not_failed (h : LlamaHandle) (t p : Rat) (e : EngineStep)
    (hs : samplerOk h t p e) :
    (ensure_sampler h t p e.samplerInitOk).1 ≠ SamplerOutcome.failed := by
  unfold ensure_sampler
  rcases hs with hc | hok
  · rw [if_pos hc]; simp
  · simp only [hok]
    split <;> simp

lemma ensure_sampler_cache (h : LlamaHandle) (t p : Rat) (ok : Bool)
    (hne : (ensure_sampler h t p ok).1 ≠ SamplerOutcome.failed) :
    ((ensure_sampler h t p ok).2).smpl = true ∧
      ((ensure_sampler h t p ok).2).last_temp = t ∧
      ((ensure_sampler h t p ok).2).last_top_p = p := by
  unfold ensure_sampler at hne ⊢
  split at hne
  · next hc =>
    rw [if_pos hc]
    exact ⟨hc.1, hc.2.1.symm, hc.2.2.symm⟩
  · next hc =>
    rw [if_neg hc]
    split at hne
    · next hok => rw [if_pos hok]; exact ⟨rfl, rfl, rfl⟩
    · next hok => exact absurd rfl hne

-- Field lemmas for afterSampler: ensure_sampler only touches sampler fields.

@[simp] lemma afterSampler_n_cur (h : LlamaHandle) (t p : Rat) (ok : Bool) :
    (afterSampler h t p ok).n_cur = h.n_cur := ensure_sampler_n_cur h t p ok

@[simp] lemma afterSampler_n_gen (h : LlamaHandle) (t p : Rat) (ok : Bool) :
    (afterSampler h t p ok).n_gen = h.n_gen := ensure_sampler_n_gen h t p ok

@[simp] lemma afterSampler_n_prompt (h : LlamaHandle) (t p : Rat) (ok : Bool) :
    (afterSampler h t p ok).n_prompt = h.n_prompt :=
  ensure_sampler_n_prompt h t p ok

@[simp] lemma afterSampler_max_new (h : LlamaHandle) (t p : Rat) (ok : Bool) :
    (afterSampler h t p ok).max_new_tokens = h.max_new_tokens :=
  ensure_sampler_max_new h t p ok

@[simp] lemma afterSampler_is_prepared (h : LlamaHandle) (t p : Rat) (ok : Bool) :
    (afterSampler h t p ok).is_prepared = h.is_prepared :=
  ensure_sampler_is_prepared h t p ok

@[simp] lemma afterSampler_n_ctx (h : LlamaHandle) (t p : Rat) (ok : Bool) :
    (afterSampler h t p ok).n_ctx = h.n_ctx := ensure_sampler_n_ctx h t p ok

-- Helper lemmas characterizing the exit paths of next_token_step.

lemma next_token_step_emitted (h : LlamaHandle) (t p : Rat) (e : EngineStep)
    (n : Nat) (r : StepOutcome × LlamaHandle)
    (hr : next_token_step h t p e = r) (hem : r.1 = StepOutcome.emitted n) :
    n = e.piece.length ∧
      r.2.n_cur = h.n_cur + 1 ∧
      r.2.n_gen = h.n_gen + 1 ∧
      r.2.n_prompt = h.n_prompt ∧
      r.2.max_new_tokens = h.max_new_tokens ∧
      r.2.is_prepared = h.is_prepared ∧
      r.2.n_ctx = h.n_ctx ∧
      h.is_prepared = true ∧
      h.n_cur < h.n_ctx - 4 ∧ h.n_gen < h.max_new_tokens := by
  unfold next_token_step at hr
  split at hr
  · subst hr; simp at hem
  · next hprep =>
    have hprep' : h.is_prepared = true := by
      cases hv : h.is_prepared
      · exact absurd hv hprep
      · rfl
    split at hr
    · subst hr; simp at hem
    · split at hr
      · subst hr; simp at hem
      · next hctx =>
        split at hr
        · subst hr; simp at hem
        · next hlen =>
          split at hr
          · subst hr; simp at hem
          · split at hr
            · subst hr; simp at hem
            · split at hr
              · subst hr
                simp only [Prod.fst] at hem
                cases hem
                simp only [afterSampler_n_cur, afterSampler_n_gen,
                  afterSampler_max_new, afterSampler_n_ctx] at hctx hlen
                refine ⟨rfl, ?_⟩
                simp only [Prod.snd]
                refine ⟨by simp, by simp, by simp, by simp, by simp [hprep'],
                  by simp, hprep', by omega, by omega⟩
              · subst hr; simp at hem

lemma next_token_step_not_emitted (h : LlamaHandle) (t p : Rat) (e : EngineStep)
    (r : StepOutcome × LlamaHandle) (hr : next_token_step h t p e = r)
    (hne : ∀ n, r.1 ≠ StepOutcome.emitted n) :
    r.2.n_cur = h.n_cur ∧
      r.2.n_gen = h.n_gen ∧
      r.2.n_prompt = h.n_prompt ∧
      r.2.max_new_tokens = h.max_new_tokens ∧
      r.2.is_prepared = h.is_prepared ∧
      r.2.n_ctx = h.n_ctx := by
  unfold next_token_step at hr
  split at hr
  · subst hr; exact ⟨rfl, rfl, rfl, rfl, rfl, rfl⟩
  · split at hr
    · subst hr; simp
    · split at hr
      · subst hr; simp
      · split at hr
        · subst hr; simp
        · split at hr
          · subst hr; simp
          · split at hr
            · subst hr; simp
            · split at hr
              · exact absurd (by rw [← hr]) (hne e.piece.length)
              · subst hr; simp

lemma next_token_step_prepared_ne (h : LlamaHandle) (t p : Rat) (e : EngineStep)
    (hp : h.is_prepared = true) :
    (next_token_step h t p e).1 ≠ StepOutcome.notPrepared := by
  unfold next_token_step
  rw [if_neg (by simp [hp])]
  split
  · simp
  · split
    · simp
    · split
      · simp
      · split
        · simp
        · split
          · simp
          · split <;> simp

-- Helper lemmas about the pre-fill loop.

lemma prefillAux_all (b : Nat) (f : Nat → Bool) (hb : 1 ≤ b)
    (hf : ∀ j, f j = true) :
    ∀ fuel i c r, r ≤ fuel → prefillAux b f fuel i c r = (true, c + r) := by
  intro fuel
  induction fuel with
  | zero =>
    intro i c r hr
    interval_cases r
    rfl
  | succ fuel ih =>
    intro i c r hr
    cases r with
    | zero => rfl
    | succ r' =>
      rw [prefillAux, if_neg (by omega), if_pos (hf i)]
      have hmin1 : 1 ≤ min b (r' + 1) := by omega
      have hmin2 : min b (r' + 1) ≤ r' + 1 := Nat.min_le_right _ _
      rw [ih (i + 1) (c + min b (r' + 1)) (r' + 1 - min b (r' + 1)) (by omega)]
      congr 1
      omega

lemma prefillAux_le (b : Nat) (f : Nat → Bool) :
    ∀ fuel i c r, (prefillAux b f fuel i c r).2 ≤ c + r := by
  intro fuel
  induction fuel with
  | zero =>
    intro i c r
    cases r with
    | zero => simp [prefillAux]
    | succ r' => simp [prefillAux]
  | succ fuel ih =>
    intro i c r
    cases r with
    | zero => simp [prefillAux]
    | succ r' =>
      rw [prefillAux]
      split
      · simp
      · split
        · have := ih (i + 1) (c + min b (r' + 1)) (r' + 1 - min b (r' + 1))
          have hmin : min b (r' + 1) ≤ r' + 1 := Nat.min_le_right _ _
          omega
        · simp

lemma prefillAux_true (b : Nat) (f : Nat → Bool) :
    ∀ fuel i c r, (prefillAux b f fuel i c r).1 = true →
      (prefillAux b f fuel i c r).2 = c + r := by
  intro fuel
  induction fuel with
  | zero =>
    intro i c r hok
    cases r with
    | zero => rfl
    | succ r' => exact absurd hok (by simp [prefillAux])
  | succ fuel ih =>
    intro i c r hok
    cases r with
    | zero => rfl
    | succ r' =>
      rw [prefillAux] at hok ⊢
      split at hok
      · exact absurd hok (by simp)
      · next hb =>
        rw [if_neg hb]
        split at hok
        · next hfi =>
          rw [if_pos hfi]
          have hmin : min b (r' + 1) ≤ r' + 1 := Nat.min_le_right _ _
          rw [ih (i + 1) (c + min b (r' + 1)) (r' + 1 - min b (r' + 1)) hok]
          omega
        · exact absurd hok (by simp)

-- Helper lemmas about wrapper_prepare_prompt.

lemma prepare_success (h : LlamaHandle) (n_tokens : Nat) (chunkOk : Nat → Bool)
    (r : Bool × LlamaHandle) (hr : wrapper_prepare_prompt h n_tokens chunkOk = r)
    (hs : r.1 = true) :
    (n_tokens : Int) < h.n_ctx - 128 ∧
      r.2.n_cur = (n_tokens : Int) ∧
      r.2.n_prompt = (n_tokens : Int) ∧
      r.2.n_gen = 0 ∧
      r.2.max_new_tokens = max 16 (h.n_ctx - (n_tokens : Int) - 128) ∧
      r.2.is_prepared = true ∧
      r.2.n_ctx = h.n_ctx := by
  unfold wrapper_prepare_prompt at hr
  split at hr
  · subst hr; simp at hs
  · next hguard =>
    split at hr
    · next hpre =>
      have h2 := prefillAux_true h.batch_size chunkOk n_tokens 0 0 n_tokens hpre
      subst hr
      unfold prefillLoop
      rw [h2]
      refine ⟨by omega, by simp, by simp, rfl, by simp, rfl, rfl⟩
    · subst hr; simp at hs

lemma prepare_fail_not_ready (h : LlamaHandle) (n_tokens : Nat)
    (chunkOk : Nat → Bool) (r : Bool × LlamaHandle)
    (hr : wrapper_prepare_prompt h n_tokens chunkOk = r) (hf : r.1 = false) :
    r.2.is_prepared = false := by
  unfold wrapper_prepare_prompt at hr
  split at hr
  · subst hr; rfl
  · split at hr
    · subst hr; simp at hf
    · subst hr; rfl

lemma prepare_guard_fail (h : LlamaHandle) (n_tokens : Nat)
    (chunkOk : Nat → Bool) (hg : h.n_ctx - 128 ≤ (n_tokens : Int)) :
    wrapper_prepare_prompt h n_tokens chunkOk =
      (false, { h with is_prepared := false }) := by
  unfold wrapper_prepare_prompt
  rw [if_pos hg]

lemma prepare_n_cur_bound (h : LlamaHandle) (n_tokens : Nat)
    (chunkOk : Nat → Bool) (hinv : h.n_cur < h.n_ctx) :
    ((wrapper_prepare_prompt h n_tokens chunkOk).2).n_cur < h.n_ctx := by
  unfold wrapper_prepare_prompt
  split
  · exact hinv
  · next hguard =>
    have hle := prefillAux_le h.batch_size chunkOk n_tokens 0 0 n_tokens
    unfold prefillLoop
    split
    · simp only []
      omega
    · simp only []
      omega

lemma prepare_succeeds_all (h : LlamaHandle) (n_tokens : Nat)
    (chunkOk : Nat → Bool) (hb : 1 ≤ h.batch_size)
    (hf : ∀ j, chunkOk j = true) (hg : (n_tokens : Int) < h.n_ctx - 128) :
    wrapper_prepare_prompt h n_tokens chunkOk =
      (true,
        { h with
          n_cur := (n_tokens : Int)
          n_prompt := (n_tokens : Int)
          n_gen := 0
          max_new_tokens := max 16 (h.n_ctx - (n_tokens : Int) - 128)
          is_prepared := true }) := by
  unfold wrapper_prepare_prompt
  rw [if_neg (by omega)]
  unfold prefillLoop
  rw [prefillAux_all h.batch_size chunkOk hb hf n_tokens 0 0 n_tokens le_rfl]
  simp

-- Helper lemmas for the stop-sequence and length-limit paths.

lemma stopHit_of_imStart (s : List Char)
    (hm : containsSub imStartMarker s = true) : stopHit s = true := by
  simp [stopHit, hm]

lemma imStart_piece_ne_nil (s : List Char)
    (hm : containsSub imStartMarker s = true) : 0 < s.length := by
  cases s with
  | nil => exact absurd hm (by decide)
  | cons c rest => simp

lemma step_not_prepared (h : LlamaHandle) (t p : Rat) (e : EngineStep)
    (hp : h.is_prepared = false) :
    next_token_step h t p e = (StepOutcome.notPrepared, h) := by
  unfold next_token_step
  rw [if_pos hp]

lemma next_token_limit_zero (h : LlamaHandle) (t p : Rat) (e : EngineStep)
    (hp : h.is_prepared = true) (hs : samplerOk h t p e)
    (hlim : h.max_new_tokens ≤ h.n_gen) :
    (wrapper_get_next_token h t p e).1 = 0 := by
  unfold wrapper_get_next_token next_token_step
  rw [if_neg (by simp [hp]),
    if_neg (ensure_sampler_not_failed h t p e hs)]
  split
  · rfl
  · rw [if_pos (by simpa using hlim)]
    rfl

-- Helper lemmas about traces of next_token calls.

lemma emittedCount_nil : emittedCount [] = 0 := rfl

lemma emittedCount_cons_emitted (n : Nat) (os : List StepOutcome) :
    emittedCount (StepOutcome.emitted n :: os) = emittedCount os + 1 := by
  simp [emittedCount, List.countP_cons]

lemma emittedCount_cons_other (o : StepOutcome) (os : List StepOutcome)
    (ho : ∀ n, o ≠ StepOutcome.emitted n) :
    emittedCount (o :: os) = emittedCount os := by
  cases o with
  | emitted n => exact absurd rfl (ho n)
  | notPrepared => simp [emittedCount, List.countP_cons]
  | samplerFail => simp [emittedCount, List.countP_cons]
  | ctxFull => simp [emittedCount, List.countP_cons]
  | lenLimit => simp [emittedCount, List.countP_cons]
  | stopSeq => simp [emittedCount, List.countP_cons]
  | eog => simp [emittedCount, List.countP_cons]
  | decodeFail => simp [emittedCount, List.countP_cons]

lemma runTrace_emitted_bound (t p : Rat) :
    ∀ (es : List EngineStep) (h : LlamaHandle),
      h.n_gen ≤ h.max_new_tokens →
      (emittedCount (runTrace t p h es).1 : Int) ≤
        h.max_new_tokens - h.n_gen := by
  intro es
  induction es with
  | nil =>
    intro h hle
    simp only [runTrace, emittedCount_nil]
    omega
  | cons e es ih =>
    intro h hle
    simp only [runTrace]
    by_cases hem : ∃ n, (next_token_step h t p e).1 = StepOutcome.emitted n
    · obtain ⟨n, hn⟩ := hem
      obtain ⟨-, -, hgen, -, hmax, -, -, -, -, hlt⟩ :=
        next_token_step_emitted h t p e n (next_token_step h t p e) rfl hn
      rw [hn, emittedCount_cons_emitted]
      have hih := ih (next_token_step h t p e).2 (by omega)
      push_cast
      omega
    · push_neg at hem
      obtain ⟨-, hgen, -, hmax, -, -⟩ :=
        next_token_step_not_emitted h t p e (next_token_step h t p e) rfl hem
      rw [emittedCount_cons_other _ _ hem]
      have hih := ih (next_token_step h t p e).2 (by omega)
      omega

-- Claim theorems.

/-- C1: while the session is ready, `n_cur = n_prompt + n_gen` holds:
a successful prepare establishes `n_cur = n_prompt` with `n_gen = 0`, every
token-submitting `next_token` call increments `n_cur` and `n_gen` together by
exactly 1 (leaving `n_prompt` alone), and every call — submitting or not —
preserves the equality, so it holds across any sequence of next_token
calls. -/
theorem c1_cursor_sum_invariant :
    (∀ (h : LlamaHandle) (n_tokens : Nat) (chunkOk : Nat → Bool),
      (wrapper_prepare_prompt h n_tokens chunkOk).1 = true →
        ((wrapper_prepare_prompt h n_tokens chunkOk).2).n_cur =
            ((wrapper_prepare_prompt h n_tokens chunkOk).2).n_prompt ∧
          ((wrapper_prepare_prompt h n_tokens chunkOk).2).n_gen = 0) ∧
    (∀ (h : LlamaHandle) (t p : Rat) (e : EngineStep) (n : Nat),
      (next_token_step h t p e).1 = StepOutcome.emitted n →
        ((next_token_step h t p e).2).n_cur = h.n_cur + 1 ∧
          ((next_token_step h t p e).2).n_gen = h.n_gen + 1 ∧
          ((next_token_step h t p e).2).n_prompt = h.n_prompt) ∧
    (∀ (h : LlamaHandle) (t p : Rat) (e : EngineStep),
      h.n_cur = h.n_prompt + h.n_gen →
        ((next_token_step h t p e).2).n_cur =
          ((next_token_step h t p e).2).n_prompt +
            ((next_token_step h t p e).2).n_gen) := by
  refine ⟨?_, ?_, ?_⟩
  · intro h n_tokens chunkOk hs
    obtain ⟨-, hcur, hprompt, hgen, -, -, -⟩ :=
      prepare_success h n_tokens chunkOk _ rfl hs
    exact ⟨by rw [hcur, hprompt], hgen⟩
  · intro h t p e n hem
    obtain ⟨-, hcur, hgen, hprompt, -, -, -, -, -, -⟩ :=
      next_token_step_emitted h t p e n _ rfl hem
    exact ⟨hcur, hgen, hprompt⟩
  · intro h t p e hinv
    by_cases hem : ∃ n, (next_token_step h t p e).1 = StepOutcome.emitted n
    · obtain ⟨n, hn⟩ := hem
      obtain ⟨-, hcur, hgen, hprompt, -, -, -, -, -, -⟩ :=
        next_token_step_emitted h t p e n _ rfl hn
      rw [hcur, hgen, hprompt]
      omega
    · push_neg at hem
      obtain ⟨hcur, hgen, hprompt, -, -, -⟩ :=
        next_token_step_not_emitted h t p e _ rfl hem
      rw [hcur, hgen, hprompt]
      exact hinv

/-- Witness for C1 at the worked-example session and an ordinary token. -/
theorem c1_cursor_sum_invariant_witness :
    ((next_token_step hReady 1 1 ePlain).2).n_cur =
      ((next_token_step hReady 1 1 ePlain).2).n_prompt +
        ((next_token_step hReady 1 1 ePlain).2).n_gen :=
  c1_cursor_sum_invariant.2.2 hReady 1 1 ePlain (by decide)

set_option maxRecDepth 8000 in
/-- C2: for every context size and every prompt with `T < C - 128` (the
engine decoding every chunk, and a positive batch size as `wrapper_init`
guarantees), prepare succeeds and sets
`max_new_tokens = max 16 (C - T - 128)`; concretely, with C = 256 and T = 50
the limit is 78, the first 78 calls with an ordinary token all submit
(`n_gen` reaches 78), and the 79th call returns 0. -/
theorem c2_generation_limit :
    (∀ (h : LlamaHandle) (n_tokens : Nat) (chunkOk : Nat → Bool),
      1 ≤ h.batch_size → (∀ j, chunkOk j = true) →
      (n_tokens : Int) < h.n_ctx - 128 →
        (wrapper_prepare_prompt h n_tokens chunkOk).1 = true ∧
          ((wrapper_prepare_prompt h n_tokens chunkOk).2).max_new_tokens =
            max 16 (h.n_ctx - (n_tokens : Int) - 128) ∧
          ((wrapper_prepare_prompt h n_tokens chunkOk).2).is_prepared =
            true) ∧
    (wrapper_prepare_prompt (wrapper_init 256) 50 (fun _ => true)).1 = true ∧
    hReady.max_new_tokens = 78 ∧
    (runSteps 1 1 ePlain 78 hReady).n_gen = 78 ∧
    (wrapper_get_next_token (runSteps 1 1 ePlain 78 hReady) 1 1 ePlain).1 =
      0 := by
  refine ⟨?_, by decide, by decide, by decide, by decide⟩
  intro h n_tokens chunkOk hb hf hg
  rw [prepare_succeeds_all h n_tokens chunkOk hb hf hg]
  exact ⟨rfl, rfl, rfl⟩

/-- Witness for C2's universally quantified part at a 300-token context and a
60-token prompt. -/
theorem c2_generation_limit_witness :
    (wrapper_prepare_prompt (wrapper_init 300) 60 (fun _ => true)).1 = true ∧
      ((wrapper_prepare_prompt (wrapper_init 300) 60
            (fun _ => true)).2).max_new_tokens =
        max 16 ((wrapper_init 300).n_ctx - ((60 : Nat) : Int) - 128) ∧
      ((wrapper_prepare_prompt (wrapper_init 300) 60
            (fun _ => true)).2).is_prepared = true :=
  c2_generation_limit.1 (wrapper_init 300) 60 (fun _ => true) (by decide)
    (fun _ => rfl) (by decide)

/-- C3 counterexample: from the worked-example session, a sampled token that
decodes to zero bytes is submitted to the engine (both counters advance) and
the call returns 0 — a submitting call whose returned byte count is not
positive, and a 0 return outside the guard/stop paths. -/
theorem c3_counterexample :
    (wrapper_get_next_token hReady 1 1 eEmptyPiece).1 = 0 ∧
      ((wrapper_get_next_token hReady 1 1 eEmptyPiece).2).n_cur =
        hReady.n_cur + 1 ∧
      ((wrapper_get_next_token hReady 1 1 eEmptyPiece).2).n_gen =
        hReady.n_gen + 1 := by
  decide

/-- C3 (amended): on every call that submits a token to the engine and
increments `n_cur` and `n_gen`, the value returned is the decoded byte count,
which is nonnegative — positive exactly when the token decoded to a
non-empty piece; a token decoding to zero bytes is still submitted and the
call returns 0. -/
theorem c3_submit_returns_byte_count :
    ∀ (h : LlamaHandle) (t p : Rat) (e : EngineStep) (n : Nat),
      (next_token_step h t p e).1 = StepOutcome.emitted n →
        (wrapper_get_next_token h t p e).1 = (e.piece.length : Int) ∧
          ((wrapper_get_next_token h t p e).2).n_cur = h.n_cur + 1 ∧
          ((wrapper_get_next_token h t p e).2).n_gen = h.n_gen + 1 ∧
          ((wrapper_get_next_token h t p e).1 = 0 ↔ e.piece = []) := by
  intro h t p e n hem
  obtain ⟨hn, hcur, hgen, -, -, -, -, -, -, -⟩ :=
    next_token_step_emitted h t p e n _ rfl hem
  subst hn
  unfold wrapper_get_next_token
  rw [hem]
  refine ⟨rfl, hcur, hgen, ?_⟩
  simp [returnCode]

/-- Witness for C3's amended theorem at the worked-example session and an
ordinary one-byte token. -/
theorem c3_submit_returns_byte_count_witness :
    (wrapper_get_next_token hReady 1 1 ePlain).1 =
        (ePlain.piece.length : Int) ∧
      ((wrapper_get_next_token hReady 1 1 ePlain).2).n_cur =
        hReady.n_cur + 1 ∧
      ((wrapper_get_next_token hReady 1 1 ePlain).2).n_gen =
        hReady.n_gen + 1 ∧
      ((wrapper_get_next_token hReady 1 1 ePlain).1 = 0 ↔
        ePlain.piece = []) :=
  c3_submit_returns_byte_count hReady 1 1 ePlain 1 (by decide)

/-- C4: a call (on a ready session, with the sampler stage succeeding) whose
sampled token decodes to text containing "<|im_start|>" returns 0 and leaves
`n_cur` and `n_gen` unchanged: the token is not submitted to the engine. -/
theorem c4_im_start_stops_generation :
    ∀ (h : LlamaHandle) (t p : Rat) (e : EngineStep),
      h.is_prepared = true → samplerOk h t p e →
      containsSub imStartMarker e.piece = true →
        (wrapper_get_next_token h t p e).1 = 0 ∧
          ((wrapper_get_next_token h t p e).2).n_cur = h.n_cur ∧
          ((wrapper_get_next_token h t p e).2).n_gen = h.n_gen := by
  intro h t p e hp hs hm
  unfold wrapper_get_next_token next_token_step
  rw [if_neg (by simp [hp]), if_neg (ensure_sampler_not_failed h t p e hs)]
  split
  · exact ⟨rfl, by simp, by simp⟩
  · split
    · exact ⟨rfl, by simp, by simp⟩
    · rw [if_pos
        ⟨imStart_piece_ne_nil e.piece hm, stopHit_of_imStart e.piece hm⟩]
      exact ⟨rfl, by simp, by simp⟩

/-- Witness for C4 at the worked-example session and a piece containing
"<|im_start|>". -/
theorem c4_im_start_stops_generation_witness :
    (wrapper_get_next_token hReady 1 1 eStopPiece).1 = 0 ∧
      ((wrapper_get_next_token hReady 1 1 eStopPiece).2).n_cur =
        hReady.n_cur ∧
      ((wrapper_get_next_token hReady 1 1 eStopPiece).2).n_gen =
        hReady.n_gen :=
  c4_im_start_stops_generation hReady 1 1 eStopPiece (by decide) (by decide)
    (by decide)

/-- C5: the sampling pipeline is rebuilt if and only if the requested
(temperature, nucleus_p) pair differs from the cached pair or no pipeline
exists; a matching request only resets the pipeline and leaves the handle
untouched; after any successful sampler stage the requested pair is cached
with a live pipeline, so a parameter change causes exactly one rebuild on the
next call and `wrapper_get_next_token` leaves exactly the sampler state that
`ensure_sampler` produced. -/
theorem c5_sampler_rebuild_iff :
    (∀ (h : LlamaHandle) (t p : Rat) (ok : Bool),
      (ensure_sampler h t p ok).1 = SamplerOutcome.resetOnly ↔
        (h.smpl = true ∧ t = h.last_temp ∧ p = h.last_top_p)) ∧
    (∀ (h : LlamaHandle) (t p : Rat) (ok : Bool),
      h.smpl = true → t = h.last_temp → p = h.last_top_p →
        ensure_sampler h t p ok = (SamplerOutcome.resetOnly, h)) ∧
    (∀ (h : LlamaHandle) (t p : Rat) (ok : Bool),
      (ensure_sampler h t p ok).1 ≠ SamplerOutcome.failed →
        ((ensure_sampler h t p ok).2).smpl = true ∧
          ((ensure_sampler h t p ok).2).last_temp = t ∧
          ((ensure_sampler h t p ok).2).last_top_p = p) ∧
    (∀ (h : LlamaHandle) (t p : Rat) (ok : Bool),
      (ensure_sampler h t p ok).1 = SamplerOutcome.rebuilt →
        ¬(h.smpl = true ∧ t = h.last_temp ∧ p = h.last_top_p)) ∧
    (∀ (h : LlamaHandle) (t p : Rat) (e : EngineStep),
      h.is_prepared = true →
        ((wrapper_get_next_token h t p e).2).smpl =
            (afterSampler h t p e.samplerInitOk).smpl ∧
          ((wrapper_get_next_token h t p e).2).last_temp =
            (afterSampler h t p e.samplerInitOk).last_temp ∧
          ((wrapper_get_next_token h t p e).2).last_top_p =
            (afterSampler h t p e.samplerInitOk).last_top_p) := by
  refine ⟨?_, ensure_sampler_same, ensure_sampler_cache, ?_, ?_⟩
  · intro h t p ok
    unfold ensure_sampler
    split
    · next hc => simp [hc]
    · next hc =>
      split
      · simp [hc]
      · simp [hc]
  · intro h t p ok hr
    unfold ensure_sampler at hr
    split at hr
    · simp at hr
    · next hc => exact hc
  · intro h t p e hp
    unfold wrapper_get_next_token next_token_step
    rw [if_neg (by simp [hp])]
    split
    · exact ⟨rfl, rfl, rfl⟩
    · split
      · exact ⟨rfl, rfl, rfl⟩
      · split
        · exact ⟨rfl, rfl, rfl⟩
        · split
          · exact ⟨rfl, rfl, rfl⟩
          · split
            · exact ⟨rfl, rfl, rfl⟩
            · split <;> exact ⟨rfl, rfl, rfl⟩

/-- Witness for C5: a cache hit resets without rebuilding; a fresh handle
rebuilds, caches the pair, and reports a configuration mismatch; the
next_token call leaves the sampler state `ensure_sampler` produced. -/
theorem c5_sampler_rebuild_iff_witness :
    ensure_sampler (afterSampler (wrapper_init 256) 1 1 true) 1 1 true =
        (SamplerOutcome.resetOnly, afterSampler (wrapper_init 256) 1 1 true) ∧
      (((ensure_sampler (wrapper_init 256) 1 1 true).2).smpl = true ∧
        ((ensure_sampler (wrapper_init 256) 1 1 true).2).last_temp = 1 ∧
        ((ensure_sampler (wrapper_init 256) 1 1 true).2).last_top_p = 1) ∧
      ¬((wrapper_init 256).smpl = true ∧
          (1 : Rat) = (wrapper_init 256).last_temp ∧
          (1 : Rat) = (wrapper_init 256).last_top_p) ∧
      (((wrapper_get_next_token hReady 1 1 ePlain).2).smpl =
            (afterSampler hReady 1 1 ePlain.samplerInitOk).smpl ∧
        ((wrapper_get_next_token hReady 1 1 ePlain).2).last_temp =
          (afterSampler hReady 1 1 ePlain.samplerInitOk).last_temp ∧
        ((wrapper_get_next_token hReady 1 1 ePlain).2).last_top_p =
          (afterSampler hReady 1 1 ePlain.samplerInitOk).last_top_p) :=
  ⟨c5_sampler_rebuild_iff.2.1 (afterSampler (wrapper_init 256) 1 1 true) 1 1
      true (by decide) (by decide) (by decide),
    c5_sampler_rebuild_iff.2.2.1 (wrapper_init 256) 1 1 true (by decide),
    c5_sampler_rebuild_iff.2.2.2.1 (wrapper_init 256) 1 1 true (by decide),
    c5_sampler_rebuild_iff.2.2.2.2 hReady 1 1 ePlain (by decide)⟩

/-- C6: a prompt of `T ≥ C - 128` tokens makes prepare fail with the session
not-ready; every failing prepare leaves the session not-ready; a not-ready
session makes `next_token` return -2 (`NotPreparedError`); and a successful
prepare is what makes the session ready again. -/
theorem c6_prepare_failure_not_ready :
    (∀ (h : LlamaHandle) (n_tokens : Nat) (chunkOk : Nat → Bool),
      h.n_ctx - 128 ≤ (n_tokens : Int) →
        (wrapper_prepare_prompt h n_tokens chunkOk).1 = false ∧
          ((wrapper_prepare_prompt h n_tokens chunkOk).2).is_prepared =
            false) ∧
    (∀ (h : LlamaHandle) (n_tokens : Nat) (chunkOk : Nat → Bool),
      (wrapper_prepare_prompt h n_tokens chunkOk).1 = false →
        ((wrapper_prepare_prompt h n_tokens chunkOk).2).is_prepared =
          false) ∧
    (∀ (h : LlamaHandle) (t p : Rat) (e : EngineStep),
      h.is_prepared = false → (wrapper_get_next_token h t p e).1 = -2) ∧
    (∀ (h : LlamaHandle) (n_tokens : Nat) (chunkOk : Nat → Bool),
      (wrapper_prepare_prompt h n_tokens chunkOk).1 = true →
        ((wrapper_prepare_prompt h n_tokens chunkOk).2).is_prepared =
          true) := by
  refine ⟨?_, ?_, ?_, ?_⟩
  · intro h n_tokens chunkOk hg
    rw [prepare_guard_fail h n_tokens chunkOk hg]
    exact ⟨rfl, rfl⟩
  · intro h n_tokens chunkOk hf
    exact prepare_fail_not_ready h n_tokens chunkOk _ rfl hf
  · intro h t p e hp
    unfold wrapper_get_next_token
    rw [step_not_prepared h t p e hp]
    rfl
  · intro h n_tokens chunkOk hs
    exact (prepare_success h n_tokens chunkOk _ rfl hs).2.2.2.2.2.1

/-- Witness for C6: a 200-token prompt against a 256-token context fails and
leaves the session not-ready, and next_token on a fresh (never-prepared)
handle returns -2. -/
theorem c6_prepare_failure_not_ready_witness :
    ((wrapper_prepare_prompt (wrapper_init 256) 200 (fun _ => true)).1 =
        false ∧
      ((wrapper_prepare_prompt (wrapper_init 256) 200
            (fun _ => true)).2).is_prepared = false) ∧
      (wrapper_get_next_token (wrapper_init 256) 1 1 ePlain).1 = -2 :=
  ⟨c6_prepare_failure_not_ready.1 (wrapper_init 256) 200 (fun _ => true)
      (by decide),
    c6_prepare_failure_not_ready.2.2.1 (wrapper_init 256) 1 1 ePlain
      (by decide)⟩

/-- C7: generation terminates within the generation limit even if no
end-of-generation token is sampled: over any sequence of calls the number of
token-submitting calls never exceeds `max_new_tokens - n_gen`, and once
`n_gen` has reached `max_new_tokens`, any call on the ready session (whose
sampler stage succeeds) returns 0. -/
theorem c7_length_guard_terminates :
    (∀ (t p : Rat) (es : List EngineStep) (h : LlamaHandle),
      h.n_gen ≤ h.max_new_tokens →
        (emittedCount (runTrace t p h es).1 : Int) ≤
          h.max_new_tokens - h.n_gen) ∧
    (∀ (h : LlamaHandle) (t p : Rat) (e : EngineStep),
      h.is_prepared = true → samplerOk h t p e →
      h.max_new_tokens ≤ h.n_gen →
        (wrapper_get_next_token h t p e).1 = 0) :=
  ⟨fun t p es h hle => runTrace_emitted_bound t p es h hle,
    fun h t p e hp hs hl => next_token_limit_zero h t p e hp hs hl⟩

/-- Witness for C7 at a session whose budget is exhausted. -/
theorem c7_length_guard_terminates_witness :
    (emittedCount (runTrace 1 1 hLimit [ePlain]).1 : Int) ≤
        hLimit.max_new_tokens - hLimit.n_gen ∧
      (wrapper_get_next_token hLimit 1 1 ePlain).1 = 0 :=
  ⟨c7_length_guard_terminates.1 1 1 [ePlain] hLimit (by decide),
    c7_length_guard_terminates.2 hLimit 1 1 ePlain (by decide) (by decide)
      (by decide)⟩

/-- C8: the cursor stays below the context capacity: prepare preserves
`n_cur < n_ctx` on every path, a successful prepare requires
`T < n_ctx - 128` and sets the cursor to T, next_token preserves
`n_cur < n_ctx`, and a token is only submitted when `n_cur < n_ctx - 4`. -/
theorem c8_cursor_below_capacity :
    (∀ (h : LlamaHandle) (n_tokens : Nat) (chunkOk : Nat → Bool),
      h.n_cur < h.n_ctx →
        ((wrapper_prepare_prompt h n_tokens chunkOk).2).n_cur < h.n_ctx) ∧
    (∀ (h : LlamaHandle) (n_tokens : Nat) (chunkOk : Nat → Bool),
      (wrapper_prepare_prompt h n_tokens chunkOk).1 = true →
        (n_tokens : Int) < h.n_ctx - 128 ∧
          ((wrapper_prepare_prompt h n_tokens chunkOk).2).n_cur =
            (n_tokens : Int)) ∧
    (∀ (h : LlamaHandle) (t p : Rat) (e : EngineStep),
      h.n_cur < h.n_ctx →
        ((next_token_step h t p e).2).n_cur < h.n_ctx) ∧
    (∀ (h : LlamaHandle) (t p : Rat) (e : EngineStep) (n : Nat),
      (next_token_step h t p e).1 = StepOutcome.emitted n →
        h.n_cur < h.n_ctx - 4) := by
  refine ⟨prepare_n_cur_bound, ?_, ?_, ?_⟩
  · intro h n_tokens chunkOk hs
    obtain ⟨hg, hcur, -, -, -, -, -⟩ :=
      prepare_success h n_tokens chunkOk _ rfl hs
    exact ⟨hg, hcur⟩
  · intro h t p e hinv
    by_cases hem : ∃ n, (next_token_step h t p e).1 = StepOutcome.emitted n
    · obtain ⟨n, hn⟩ := hem
      obtain ⟨-, hcur, -, -, -, -, -, -, hlt, -⟩ :=
        next_token_step_emitted h t p e n _ rfl hn
      omega
    · push_neg at hem
      obtain ⟨hcur, -, -, -, -, -⟩ :=
        next_token_step_not_emitted h t p e _ rfl hem
      omega
  · intro h t p e n hem
    obtain ⟨-, -, -, -, -, -, -, -, hlt, -⟩ :=
      next_token_step_emitted h t p e n _ rfl hem
    exact hlt

/-- Witness for C8 at the worked-example inputs. -/
theorem c8_cursor_below_capacity_witness :
    ((wrapper_prepare_prompt (wrapper_init 256) 50
          (fun _ => true)).2).n_cur < (wrapper_init 256).n_ctx ∧
      ((next_token_step hReady 1 1 ePlain).2).n_cur < hReady.n_ctx :=
  ⟨c8_cursor_below_capacity.1 (wrapper_init 256) 50 (fun _ => true)
      (by decide),
    c8_cursor_below_capacity.2.2.1 hReady 1 1 ePlain (by decide)⟩

/-- C9 counterexample: releasing the same non-null handle twice is not a safe
no-op — after the first release ends the allocation's life, the second
release dereferences freed memory (undefined behaviour), because the code has
only a null-pointer guard and no liveness check. -/
theorem c9_counterexample :
    (wrapper_free false ((wrapper_free false true).2)).1 =
        FreeResult.useAfterFree ∧
      (wrapper_free false ((wrapper_free false true).2)).1 ≠
        FreeResult.noop := by
  decide

/-- C9 (amended): release of a null handle is a no-op; a first release of a
live handle frees it; but a second release of the same non-null handle
accesses freed memory, so release must be called at most once per live
handle — only the null-handle case is idempotent-safe. -/
theorem c9_release_once :
    (∀ alive : Bool, wrapper_free true alive = (FreeResult.noop, alive)) ∧
      wrapper_free false true = (FreeResult.freed, false) ∧
      (wrapper_free false ((wrapper_free false true).2)).1 =
        FreeResult.useAfterFree := by
  refine ⟨?_, by decide, by decide⟩
  intro alive
  cases alive <;> decide

/-- C10: every call that stops on a guard path (context exhaustion, length
limit, stop-sequence match, end-of-generation) returns 0 and leaves `n_cur`,
`n_prompt`, `n_gen`, `max_new_tokens` and `is_prepared` unchanged; the
session remains ready, so a subsequent call is not rejected as
not-prepared. -/
theorem c10_guard_stop_frame :
    ∀ (h : LlamaHandle) (t p : Rat) (e : EngineStep),
      ((next_token_step h t p e).1 = StepOutcome.ctxFull ∨
        (next_token_step h t p e).1 = StepOutcome.lenLimit ∨
        (next_token_step h t p e).1 = StepOutcome.stopSeq ∨
        (next_token_step h t p e).1 = StepOutcome.eog) →
        (wrapper_get_next_token h t p e).1 = 0 ∧
          ((next_token_step h t p e).2).n_cur = h.n_cur ∧
          ((next_token_step h t p e).2).n_prompt = h.n_prompt ∧
          ((next_token_step h t p e).2).n_gen = h.n_gen ∧
          ((next_token_step h t p e).2).max_new_tokens =
            h.max_new_tokens ∧
          ((next_token_step h t p e).2).is_prepared = true ∧
          h.is_prepared = true ∧
          (∀ (t2 p2 : Rat) (e2 : EngineStep),
            (next_token_step ((next_token_step h t p e).2) t2 p2 e2).1 ≠
              StepOutcome.notPrepared) := by
  intro h t p e hguard
  have hne : ∀ n, (next_token_step h t p e).1 ≠ StepOutcome.emitted n := by
    intro n hn
    rcases hguard with hg | hg | hg | hg <;> rw [hn] at hg <;> simp at hg
  obtain ⟨hcur, hgen, hprompt, hmax, hprep, -⟩ :=
    next_token_step_not_emitted h t p e _ rfl hne
  have hp : h.is_prepared = true := by
    by_contra hq
    have hfalse : h.is_prepared = false := by
      cases hv : h.is_prepared
      · rfl
      · exact absurd hv hq
    have hstep := step_not_prepared h t p e hfalse
    rcases hguard with hg | hg | hg | hg <;> rw [hstep] at hg <;> simp at hg
  refine ⟨?_, hcur, hprompt, hgen, hmax, by rw [hprep, hp], hp, ?_⟩
  · unfold wrapper_get_next_token
    rcases hguard with hg | hg | hg | hg <;> rw [hg] <;> rfl
  · intro t2 p2 e2
    exact next_token_step_prepared_ne _ t2 p2 e2 (by rw [hprep, hp])

/-- Witness for C10 at the worked-example session and an end-of-generation
token. -/
theorem c10_guard_stop_frame_witness :
    (wrapper_get_next_token hReady 1 1 eEogStep).1 = 0 ∧
      ((next_token_step hReady 1 1 eEogStep).2).n_cur = hReady.n_cur ∧
      ((next_token_step hReady 1 1 eEogStep).2).n_prompt =
        hReady.n_prompt ∧
      ((next_token_step hReady 1 1 eEogStep).2).n_gen = hReady.n_gen ∧
      ((next_token_step hReady 1 1 eEogStep).2).max_new_tokens =
        hReady.max_new_tokens ∧
      ((next_token_step hReady 1 1 eEogStep).2).is_prepared = true ∧
      hReady.is_prepared = true ∧
      (∀ (t2 p2 : Rat) (e2 : EngineStep),
        (next_token_step ((next_token_step hReady 1 1 eEogStep).2) t2 p2
              e2).1 ≠ StepOutcome.notPrepared) :=
  c10_guard_stop_frame hReady 1 1 eEogStep
    (Or.inr (Or.inr (Or.inr (by decide))))

end LlamaWrapper
